import Mathlib

/-!
Verification of the profile repository (`profile.py`): a shallow embedding of
the data-access layer for student profiles, with theorems checking the
natural-language specification against the code.

The embedding models:
  * the free-text sanitization and tsquery construction of
    `get_suggested_users`, together with a model of PostgreSQL
    `to_tsquery`/`@@` matching on the restricted grammar the code emits;
  * the database rows (`UserProfile`, `Education`, generic child tables),
    SQL join/filter evaluation, `DISTINCT`, ordering and pagination;
  * the dynamic query builder of `get_searched_users` as a symbolic query
    AST built exactly the way the Python code chains SQLAlchemy calls,
    plus an evaluator for that AST.
-/

namespace ProfileRepo

/-! ## Text sanitization and tsquery construction (`get_suggested_users`) -/

/-- Characters kept by the sanitization step:
`[c for c in text if c.isalnum() or c in [".", "-", " "]]`. -/
def pyKeep (c : Char) : Bool := c.isAlphanum || c == '.' || c == '-' || c == ' '

/-- `text = "".join([c for c in text if c.isalnum() or c in [".", "-", " "]])` -/
def sanitize (text : String) : String := String.mk (text.data.filter pyKeep)

/-- Split a character list at every character satisfying `p`, keeping empty
pieces (the pieces never contain a separator character). -/
def splitOnP (p : Char → Bool) : List Char → List (List Char)
  | [] => [[]]
  | c :: cs =>
    match splitOnP p cs with
    | [] => [[]]
    | piece :: ps => if p c then [] :: piece :: ps else (c :: piece) :: ps

/-- Python `str.split()` with no argument: split on whitespace and drop the
empty pieces.  Applied to `sanitize text` this models `text.split()`. -/
def pyTokens (s : String) : List (List Char) :=
  (splitOnP Char.isWhitespace s.data).filter (fun t => !t.isEmpty)

/-- Python `sep.join(pieces)` at the character level. -/
def joinChar (sep : Char) : List (List Char) → List Char
  | [] => []
  | [t] => t
  | t :: ts => t ++ sep :: joinChar sep ts

/-- The argument passed to `UserProfile.__ts_vector__.match(f"{text}:*")`
after `text = "&".join(text.split())`: the sanitized whitespace-separated
tokens joined by `&` with a single `:*` appended at the very end. -/
def suggestedMatchArg (text : String) : String :=
  String.mk (joinChar '&' (pyTokens (sanitize text)) ++ [':', '*'])

/-- A term of a PostgreSQL tsquery of the restricted form the code emits:
either a plain lexeme (must occur in the document) or a prefix term
(`w:*`, must be a prefix of some word of the document). -/
inductive TsAtom where
  | lexeme (w : List Char)
  | pfx (w : List Char)
deriving DecidableEq

/-- Parse one `&`-separated piece of a tsquery string: a trailing `:*` makes
it a prefix term, otherwise it is a plain lexeme. -/
def parseTsAtom (cs : List Char) : TsAtom :=
  match cs.reverse with
  | c1 :: c2 :: rest =>
    if c1 == '*' && c2 == ':' then TsAtom.pfx rest.reverse else TsAtom.lexeme cs
  | _ => TsAtom.lexeme cs

/-- Model of `to_tsquery` on the conjunctive queries this code builds:
split on `&` and parse each piece. -/
def parseTsQuery (q : String) : List TsAtom :=
  (splitOnP (fun c => c == '&') q.data).map parseTsAtom

/-- Whether one tsquery term matches a document (a list of indexed words). -/
def tsAtomMatches (doc : List String) : TsAtom → Bool
  | TsAtom.lexeme w => doc.any (fun d => d.data == w)
  | TsAtom.pfx w => doc.any (fun d => w.isPrefixOf d.data)

/-- Model of `ts_vector @@ to_tsquery(q)`: all conjuncts must match. -/
def tsMatch (doc : List String) (q : String) : Bool :=
  (parseTsQuery q).all (tsAtomMatches doc)

/-! ## Relational data model -/

/-- A `UserProfile` row. `tsVector` is the precomputed full-text search
column (`__ts_vector__`) as a list of indexed words; `fields` holds any
further columns addressed by name by the dynamic query builder. -/
structure Profile where
  id : Nat
  user_id : Nat
  profile_type : String
  parent_code : String
  created_at : Int
  tsVector : List String
  fields : List (String × String)
deriving DecidableEq

/-- `getattr(UserProfile, name)` for a row, as the column's string value. -/
def Profile.getField (p : Profile) (name : String) : String :=
  if name = "profile_type" then p.profile_type
  else if name = "parent_code" then p.parent_code
  else (((p.fields.find? (fun kv => kv.1 = name)).map (fun kv => kv.2)).getD "")

/-- An `Education` row. -/
structure EducationRow where
  id : Nat
  profile_id : Nat
  institution_id : String
  is_current : Bool
  deleted : Bool
deriving DecidableEq

/-- A row of one of the generic child tables (`Activity`, `Award`, …): a
`profile_id`/`user_id` foreign key, the soft-delete flag, and the named
columns used by the search mapping. -/
structure TRow where
  profile_id : Nat
  user_id : Nat
  deleted : Bool
  fields : List (String × String)
deriving DecidableEq

def TRow.getField (tr : TRow) (name : String) : String :=
  (((tr.fields.find? (fun kv => kv.1 = name)).map (fun kv => kv.2)).getD "")

/-- The join-key column of a child table named by the mapping
(`profile_id` unless a `match_id` override names `user_id`). -/
def TRow.keyOf (tr : TRow) (tkf : String) : Nat :=
  if tkf = "user_id" then tr.user_id else tr.profile_id

/-- The database: the profile table, the education table and the generic
child tables keyed by table name. -/
structure DB where
  profiles : List Profile
  educations : List EducationRow
  tables : List (String × List TRow)

def DB.tableRows (db : DB) (t : String) : List TRow :=
  (((db.tables.find? (fun kv => kv.1 = t)).map (fun kv => kv.2)).getD [])

/-- One result row of a (joined) query: the profile columns, the education
columns and the columns of each joined child table.  `none` stands for SQL
NULL (the unmatched side of an outer join). -/
structure ORow where
  profile : Option Profile
  edu : Option EducationRow
  tjoins : List (String × Option TRow)
deriving DecidableEq

/-- The joined columns of table `t` in a row (NULL when `t` was joined but
this row has no matching `t`-row, and also when `t` was never joined). -/
def ORow.tjoin (r : ORow) (t : String) : Option TRow :=
  (((r.tjoins.find? (fun kv => kv.1 = t)).map (fun kv => kv.2)).getD none)

deriving instance DecidableEq for Except

/-- The base row set of `self.select()`: one row per profile, nothing joined. -/
def baseRows (db : DB) : List ORow :=
  db.profiles.map (fun p => { profile := some p, edu := none, tjoins := [] })

/-! ## Join evaluation -/

/-- The ON-condition used everywhere the code joins `Education` explicitly:
`and_(Education.is_current == True, Education.profile_id == UserProfile.id,
Education.deleted != True)`. -/
def eduOnCurrent (p : Profile) (e : EducationRow) : Bool :=
  e.is_current && e.profile_id == p.id && !e.deleted

/-- The ON-condition SQLAlchemy infers for a bare `.outerjoin(Education)`
(from the foreign key only): `Education.profile_id == UserProfile.id`. -/
def eduOnBare (p : Profile) (e : EducationRow) : Bool :=
  e.profile_id == p.id

/-- Join the education table onto a row set.  `full = false` is a LEFT OUTER
join; `full = true` is a FULL OUTER join, which additionally keeps the
education rows matched by no result row, with NULL profile columns. -/
def joinEduRows (full : Bool) (onCond : Profile → EducationRow → Bool)
    (db : DB) (rows : List ORow) : List ORow :=
  (rows.flatMap (fun r =>
    match r.profile with
    | none => [{ r with edu := none }]
    | some p =>
      match db.educations.filter (onCond p) with
      | [] => [{ r with edu := none }]
      | es => es.map (fun e => { r with edu := some e }))) ++
  (if full then
    (db.educations.filter (fun e =>
        !(rows.any (fun r =>
          match r.profile with
          | some p => onCond p e
          | none => false)))).map
      (fun e => { profile := none, edu := some e, tjoins := [] })
  else [])

/-- Join a generic child table onto a row set, as the dynamic builder does:
ON `table_id == userprofile_id AND deleted != True`, always `full=True`. -/
def joinGenericRows (db : DB) (t tkf : String) (byUser : Bool)
    (rows : List ORow) : List ORow :=
  let trs := db.tableRows t
  let onMatch := fun (p : Profile) (tr : TRow) =>
    (tr.keyOf tkf == (if byUser then p.user_id else p.id)) && !tr.deleted
  let matched := rows.flatMap (fun r =>
    match r.profile with
    | none => [{ r with tjoins := r.tjoins ++ [(t, none)] }]
    | some p =>
      match trs.filter (onMatch p) with
      | [] => [{ r with tjoins := r.tjoins ++ [(t, none)] }]
      | ms => ms.map (fun tr => { r with tjoins := r.tjoins ++ [(t, some tr)] }))
  matched ++ (trs.filter (fun tr =>
      !(rows.any (fun r =>
        match r.profile with
        | some p => onMatch p tr
        | none => false)))).map
    (fun tr => { profile := none, edu := none, tjoins := [(t, some tr)] })

/-! ## Ordering, DISTINCT, entity collapse and pagination -/

/-- The sort key of `order_by(desc(UserProfile.created_at))`; NULL profile
columns (from full outer joins) sort first under `DESC` in PostgreSQL. -/
def rowKey (r : ORow) : Option Int := r.profile.map (fun p => p.created_at)

/-- Descending comparison on optional keys, NULLs first. -/
def ogeKey : Option Int → Option Int → Bool
  | none, _ => true
  | some _, none => false
  | some a, some b => b ≤ a

/-- Row order produced by `order_by(desc(UserProfile.created_at))`. -/
def rowGE (a b : ORow) : Prop := ogeKey (rowKey a) (rowKey b) = true

instance : DecidableRel rowGE := fun _ _ =>
  inferInstanceAs (Decidable (_ = true))

instance : IsTotal ORow rowGE := by
  constructor
  intro a b
  unfold rowGE
  cases ha : rowKey a with
  | none => left; simp [ogeKey]
  | some x =>
    cases hb : rowKey b with
    | none => right; simp [ogeKey]
    | some y =>
      rcases Int.le_total x y with h | h
      · right; simpa [ogeKey] using h
      · left; simpa [ogeKey] using h

instance : IsTrans ORow rowGE := by
  constructor
  intro a b c hab hbc
  unfold rowGE at hab hbc ⊢
  cases hka : rowKey a <;> cases hkb : rowKey b <;> cases hkc : rowKey c <;>
    simp_all [ogeKey] <;> omega

/-- The model of `ORDER BY created_at DESC`. -/
def sortRows (rows : List ORow) : List ORow := List.insertionSort rowGE rows

/-- `SELECT DISTINCT`: drop duplicate rows, keeping first occurrences. -/
def dedupFirst {α : Type} [DecidableEq α] : List α → List α
  | [] => []
  | x :: xs => x :: (dedupFirst xs).filter (fun y => y ≠ x)

/-- Whether a result row belongs to the profile entity with primary key `i`. -/
def rowHasId (i : Nat) (r : ORow) : Bool :=
  match r.profile with
  | some p => p.id == i
  | none => false

/-- `results.scalars().unique().all()` under `contains_eager(educations)`:
collapse the fetched rows to one entity per profile id (first occurrence
order), attaching the education columns of all fetched rows of that entity;
NULL entities (rows from the unmatched side of a full join) yield nothing. -/
def collapse : List ORow → List (Profile × List EducationRow)
  | [] => []
  | r :: rs =>
    match r.profile with
    | none => collapse rs
    | some p =>
      (p, (r :: rs).filterMap (fun r2 => if rowHasId p.id r2 then r2.edu else none)) ::
        (collapse rs).filter (fun x => !(x.1.id == p.id))

/-- `PageMetadata(page=…, page_size=…, total=…)`. -/
structure PageMetadata where
  page : Int
  page_size : Int
  total : Nat
deriving DecidableEq

/-- `paginate_users(query, page, page_size)` over the materialized rows of
its query argument: validate the page window, order by creation time
descending, apply `LIMIT page_size OFFSET (page-1)*page_size`, collapse the
fetched rows to unique entities, and count all rows for the metadata. -/
def paginate_users (rows : List ORow) (page page_size : Int) :
    Except String (List (Profile × List EducationRow) × PageMetadata) :=
  if page ≤ 0 then Except.error "page should be be >= 1"
  else if page_size ≤ 0 then Except.error "page_size should be >= 1"
  else
    let sorted := sortRows rows
    let sliced := (sorted.drop ((page - 1) * page_size).toNat).take page_size.toNat
    Except.ok (collapse sliced,
      { page := page, page_size := page_size, total := rows.length })

/-- The `session.execute` calls `paginate_users` reaches: the two reads
(count and windowed fetch) happen only after both validations pass. -/
def paginate_queries_issued (page page_size : Int) : Nat :=
  if page ≤ 0 then 0 else if page_size ≤ 0 then 0 else 2

/-- `_extra_count(count, page)`: extra results needed to fill the page,
`max(page.page * page.page_size - page.total, 0)`.  The `count` argument is
unused by the code. -/
def _extra_count (_count : Nat) (page : PageMetadata) : Int :=
  max (page.page * page.page_size - (page.total : Int)) 0

/-! ## `get_suggested_users` and the simple lookups -/

/-- The rows of the query built by `get_suggested_users`: base select with
the current-education outer join, then the user-exclusion, optional
full-text, include and exclude filters (each `if …:` is Python truthiness). -/
def sugRows (db : DB) (user_id : Nat)
    (include_profile_ids exclude_profile_ids : List Nat) (text : String) :
    List ORow :=
  let rows := joinEduRows false eduOnCurrent db (baseRows db)
  let rows := rows.filter (fun r =>
    match r.profile with
    | some p => p.user_id != user_id
    | none => false)
  let rows := if text ≠ "" then
      rows.filter (fun r =>
        match r.profile with
        | some p => tsMatch p.tsVector (suggestedMatchArg text)
        | none => false)
    else rows
  let rows := if include_profile_ids ≠ [] then
      rows.filter (fun r =>
        match r.profile with
        | some p => include_profile_ids.contains p.id
        | none => false)
    else rows
  let rows := if exclude_profile_ids ≠ [] then
      rows.filter (fun r =>
        match r.profile with
        | some p => !(exclude_profile_ids.contains p.id)
        | none => false)
    else rows
  rows

/-- `get_suggested_users`: build the query, paginate, map rows to domain
objects (`Page(items=…, **page_metadata.dict())`). -/
def get_suggested_users (db : DB) (user_id : Nat)
    (include_profile_ids exclude_profile_ids : List Nat)
    (page page_size : Int) (text : String) :
    Except String (List (Profile × List EducationRow) × PageMetadata) :=
  paginate_users (sugRows db user_id include_profile_ids exclude_profile_ids text)
    page page_size

/-- The shared shape of the simple lookups: base select with the
current-education outer join. -/
def baseEduCurrentRows (db : DB) : List ORow :=
  joinEduRows false eduOnCurrent db (baseRows db)

/-- `get_by_user_id`: first matching profile with its eager-loaded current
education, or `None`. -/
def get_by_user_id (db : DB) (user_id : Nat) :
    Option (Profile × List EducationRow) :=
  (collapse ((baseEduCurrentRows db).filter (fun r =>
    match r.profile with
    | some p => p.user_id == user_id
    | none => false))).head?

/-- `get_profile_by_id`. -/
def get_profile_by_id (db : DB) (id : Nat) :
    Option (Profile × List EducationRow) :=
  (collapse ((baseEduCurrentRows db).filter (fun r =>
    match r.profile with
    | some p => p.id == id
    | none => false))).head?

/-- `get_by_parent_code`. -/
def get_by_parent_code (db : DB) (parent_code : String) :
    Option (Profile × List EducationRow) :=
  (collapse ((baseEduCurrentRows db).filter (fun r =>
    match r.profile with
    | some p => p.parent_code == parent_code
    | none => false))).head?

/-- `get_profiles`: all profiles with id in `include_profile_ids`. -/
def get_profiles (db : DB) (include_profile_ids : List Nat) :
    List (Profile × List EducationRow) :=
  collapse ((baseEduCurrentRows db).filter (fun r =>
    match r.profile with
    | some p => include_profile_ids.contains p.id
    | none => false))

/-! ## The dynamic query builder of `get_searched_users`

The query under construction is represented symbolically, one constructor
per SQLAlchemy call the Python code makes, so that "the generated query is
identical" is plain equality of these values. -/

/-- A filter condition usable in a `.filter(...)` call. -/
inductive SymCond where
  | profileFieldIn (field : String) (vals : List String)
  | tableFieldIn (table field : String) (vals : List String)
  | profileTypeEq (value : String)
  | eduInstIn (ids : List String)
deriving DecidableEq

/-- The symbolic query: one constructor per chained SQLAlchemy call.
`joinGeneric … outer` records whether the code used `.join` (first join,
`outer = false`) or `.outerjoin` (subsequent joins, `outer = true`); both
carry `full=True` and therefore evaluate identically. -/
inductive SQ where
  | select
  | joinGeneric (q : SQ) (table tkf : String) (byUser outer : Bool)
  | filterCond (q : SQ) (c : SymCond)
  | filterOr (q : SQ) (cs : List SymCond)
  | joinEduFull (q : SQ)
  | outerjoinEduBare (q : SQ)
  | optionsEager (q : SQ)
  | distinctQ (q : SQ)
deriving DecidableEq

/-- The join sequence of a symbolic query, in call order. -/
inductive JoinSpec where
  | generic (table tkf : String) (byUser : Bool)
  | eduCurrentFull
  | eduBare
deriving DecidableEq

def sqJoins : SQ → List JoinSpec
  | SQ.select => []
  | SQ.joinGeneric q t tkf byUser _ => sqJoins q ++ [JoinSpec.generic t tkf byUser]
  | SQ.filterCond q _ => sqJoins q
  | SQ.filterOr q _ => sqJoins q
  | SQ.joinEduFull q => sqJoins q ++ [JoinSpec.eduCurrentFull]
  | SQ.outerjoinEduBare q => sqJoins q ++ [JoinSpec.eduBare]
  | SQ.optionsEager q => sqJoins q
  | SQ.distinctQ q => sqJoins q

/-- The WHERE clauses of a symbolic query: a conjunction of groups, each
group a disjunction (a plain `.filter(c)` is a singleton group, a
`.filter(or_(*cs))` is the group `cs`). -/
def sqWheres : SQ → List (List SymCond)
  | SQ.select => []
  | SQ.joinGeneric q _ _ _ _ => sqWheres q
  | SQ.filterCond q c => sqWheres q ++ [[c]]
  | SQ.filterOr q cs => sqWheres q ++ [cs]
  | SQ.joinEduFull q => sqWheres q
  | SQ.outerjoinEduBare q => sqWheres q
  | SQ.optionsEager q => sqWheres q
  | SQ.distinctQ q => sqWheres q

/-- Whether the query carries `SELECT DISTINCT`. -/
def sqDistinct : SQ → Bool
  | SQ.select => false
  | SQ.joinGeneric q _ _ _ _ => sqDistinct q
  | SQ.filterCond q _ => sqDistinct q
  | SQ.filterOr q _ => sqDistinct q
  | SQ.joinEduFull q => sqDistinct q
  | SQ.outerjoinEduBare q => sqDistinct q
  | SQ.optionsEager q => sqDistinct q
  | SQ.distinctQ _ => true

/-- Truth of a filter condition on one result row; comparisons against SQL
NULL are false. -/
def condHolds (r : ORow) : SymCond → Bool
  | SymCond.profileFieldIn f vals =>
    match r.profile with
    | some p => vals.contains (p.getField f)
    | none => false
  | SymCond.tableFieldIn t f vals =>
    match r.tjoin t with
    | some tr => vals.contains (tr.getField f)
    | none => false
  | SymCond.profileTypeEq v =>
    match r.profile with
    | some p => p.profile_type == v
    | none => false
  | SymCond.eduInstIn ids =>
    match r.edu with
    | some e => ids.contains e.institution_id
    | none => false

def evalJoin (db : DB) (rows : List ORow) : JoinSpec → List ORow
  | JoinSpec.generic t tkf byUser => joinGenericRows db t tkf byUser rows
  | JoinSpec.eduCurrentFull => joinEduRows true eduOnCurrent db rows
  | JoinSpec.eduBare => joinEduRows false eduOnBare db rows

/-- Evaluate a symbolic query: perform the joins in order over the base
profile rows, then apply every WHERE group (SQL applies all WHERE criteria
after all joins, regardless of the order of the chained calls), then
`DISTINCT`. -/
def evalSQ (db : DB) (q : SQ) : List ORow :=
  let rows := (sqJoins q).foldl (evalJoin db) (baseRows db)
  let rows := rows.filter (fun r =>
    (sqWheres q).all (fun group => group.any (condHolds r)))
  if sqDistinct q then dedupFirst rows else rows

/-- Modelled from the spec: `SearchUsersParams` (the DTO
`app.api.api_v1.student.dto.search_profile.SearchUsersParams` is not part of
this repository slice).  Per the spec it is "an input value object
enumerating named filter criteria (arrays of IDs/values per logical field,
e.g., SCHOOL, karma tags)"; `get` models `getattr(search_user_params, name)`. -/
structure SearchUsersParams where
  get : String → List String

/-- One value of the mapping: `{table, query_fields, match_id?}`.  `table`
is the target table name, `"UserProfile"` denoting the base profile table;
`match_id` is the optional `{'table_id': …}` join-key override. -/
structure MapEntry where
  table : String
  query_fields : List String
  match_id : Option String
deriving DecidableEq

/-- One item of `PROFILE_QUERY_PARAMS_MAPPING`: a tuple of logical field
names mapped to an entry; `none` models the empty-dict values (karma-tag
parameters) that the code filters out with `if v`. -/
structure MappingItem where
  names : List String
  entry : Option MapEntry
deriving DecidableEq

/-- Modelled from the spec: `PROFILE_QUERY_PARAMS_MAPPING` (defined in
`app.domain.student.data.search_profile`, not part of this repository
slice).  Per the spec it is a "static declarative table associating logical
search fields with target relation, join key, and column names"; this is a
representative instance with a karma-tag placeholder (empty dict), a child
table keyed by `profile_id`, a child table keyed by `user_id` via
`match_id`, and a base-table entry. -/
def PROFILE_QUERY_PARAMS_MAPPING : List MappingItem :=
  [ { names := ["KARMA_TAG"], entry := none },
    { names := ["INTEREST"],
      entry := some { table := "Activity", query_fields := ["name"], match_id := none } },
    { names := ["ROLE"],
      entry := some { table := "Roles", query_fields := ["role"], match_id := some "user_id" } },
    { names := ["PROFILE_TYPE"],
      entry := some { table := "UserProfile", query_fields := ["profile_type"], match_id := none } } ]

/-- `query_param = []; for name in query_param_names: query_param +=
getattr(search_user_params, name)`. -/
def gatherQueryParam (params : SearchUsersParams) (names : List String) :
    List String :=
  names.foldl (fun acc name => acc ++ params.get name) []

/-- One iteration of the builder loop over the mapping.  The state is
`(query, conditions)`; a `none` entry is one of the empty-dict values
removed by the comprehension's `if v`, an empty gathered `query_param`
means `continue`. -/
def processItem (params : SearchUsersParams)
    (st : Option SQ × List SymCond) (item : MappingItem) :
    Option SQ × List SymCond :=
  match item.entry with
  | none => st
  | some param =>
    let query_param := gatherQueryParam params item.names
    if query_param.isEmpty then st
    else if param.table = "UserProfile" then
      (st.1, st.2 ++ param.query_fields.map
        (fun name => SymCond.profileFieldIn name query_param))
    else
      let tkf := match param.match_id with
        | none => "profile_id"
        | some table_id => table_id
      let byUser := param.match_id.isSome
      let conds := param.query_fields.map
        (fun name => SymCond.tableFieldIn param.table name query_param)
      let query := match st.1 with
        | none => SQ.joinGeneric SQ.select param.table tkf byUser false
        | some q => SQ.joinGeneric q param.table tkf byUser true
      (some query, st.2 ++ conds)

/-- The whole builder loop. -/
def processMapping (params : SearchUsersParams) (mapping : List MappingItem) :
    Option SQ × List SymCond :=
  mapping.foldl (processItem params) (none, [])

/-- `if conditions: query = (self.select() if query is None else
query).filter(or_(*conditions))`. -/
def applyConditions (st : Option SQ × List SymCond) : Option SQ :=
  if st.2.isEmpty then st.1
  else
    match st.1 with
    | none => some (SQ.filterOr SQ.select st.2)
    | some q => some (SQ.filterOr q st.2)

/-- `_add_education_query(obj, query_param)`: filter to STUDENT profiles,
full-join the current non-deleted education, filter on the institution ids
and eager-load the educations. -/
def _add_education_query (obj : SQ) (query_param : List String) : SQ :=
  SQ.optionsEager
    (SQ.filterCond
      (SQ.joinEduFull (SQ.filterCond obj (SymCond.profileTypeEq "STUDENT")))
      (SymCond.eduInstIn query_param))

/-- The special-cased SCHOOL step of `get_searched_users`. -/
def schoolStep (params : SearchUsersParams) (q : Option SQ) : SQ :=
  let query_param := params.get "SCHOOL"
  match q with
  | none =>
    if query_param.isEmpty then
      SQ.optionsEager (SQ.outerjoinEduBare
        (SQ.filterCond SQ.select (SymCond.profileTypeEq "STUDENT")))
    else _add_education_query SQ.select query_param
  | some q =>
    if query_param.isEmpty then
      SQ.optionsEager (SQ.outerjoinEduBare
        (SQ.filterCond q (SymCond.profileTypeEq "STUDENT")))
    else _add_education_query q query_param

/-- The full query constructed by `get_searched_users` (before pagination):
builder loop, OR-combined conditions, SCHOOL step, `DISTINCT`. -/
def buildSearchedQuery (params : SearchUsersParams)
    (mapping : List MappingItem) : SQ :=
  SQ.distinctQ (schoolStep params (applyConditions (processMapping params mapping)))

/-- `get_searched_users(page, page_size, search_user_params)`: build the
query, evaluate it, paginate; the returned metadata is exactly
`page_metadata.dict()` from `paginate_users` (the extra-results top-up is
commented out). -/
def get_searched_users (db : DB) (page page_size : Int)
    (params : SearchUsersParams) (mapping : List MappingItem) :
    Except String (List (Profile × List EducationRow) × PageMetadata) :=
  paginate_users (evalSQ db (buildSearchedQuery params mapping)) page page_size

/-- `search_profile_users(user_id, search_user_params)`: the body builds a
query but then evaluates `Page(items=items, **page_metadata.dict())`, and
the names `items` and `page_metadata` are bound nowhere in the body, so the
return expression raises `NameError` (CPython resolves `items` first). -/
def search_profile_users (db : DB) (user_id : Nat)
    (_search_user_params : SearchUsersParams) :
    Except String (List (Profile × List EducationRow) × PageMetadata) :=
  let _query := (joinEduRows false eduOnCurrent db (baseRows db)).filter
    (fun r =>
      match r.profile with
      | some p => p.user_id != user_id
      | none => false)
  Except.error "NameError: name items is not defined"

/-! ## Concrete instances used to exercise the theorems -/

/-- Search parameters with no values supplied for any logical field. -/
def paramsEmpty : SearchUsersParams := { get := fun _ => [] }

/-- Search parameters supplying only a SCHOOL institution id. -/
def paramsSchool : SearchUsersParams :=
  { get := fun n => if n = "SCHOOL" then ["I1"] else [] }

/-- Search parameters supplying only a base-table profile-type value. -/
def paramsProfileType : SearchUsersParams :=
  { get := fun n => if n = "PROFILE_TYPE" then ["STUDENT"] else [] }

/-- A profile whose indexed text contains a word with prefix "Jane" but not
the lexeme "Jane" itself. -/
def pJanet : Profile :=
  { id := 1, user_id := 7, profile_type := "STUDENT", parent_code := "",
    created_at := 0, tsVector := ["Janet", "Doe"], fields := [] }

def dbJanet : DB := { profiles := [pJanet], educations := [], tables := [] }

/-- A profile whose indexed text contains the lexeme "Jane" and a word with
prefix "Doe". -/
def pJane : Profile :=
  { id := 2, user_id := 9, profile_type := "STUDENT", parent_code := "",
    created_at := 0, tsVector := ["Jane", "Doedel"], fields := [] }

def dbJane : DB := { profiles := [pJane], educations := [], tables := [] }

/-- A student profile together with a soft-deleted education row and a
non-current education row. -/
def pBug : Profile :=
  { id := 1, user_id := 7, profile_type := "STUDENT", parent_code := "",
    created_at := 0, tsVector := [], fields := [] }

def eDeleted : EducationRow :=
  { id := 10, profile_id := 1, institution_id := "I1", is_current := true,
    deleted := true }

def eNotCurrent : EducationRow :=
  { id := 11, profile_id := 1, institution_id := "I2", is_current := false,
    deleted := false }

def dbBug : DB :=
  { profiles := [pBug], educations := [eDeleted, eNotCurrent], tables := [] }

/-- A student with a current non-deleted education at "I1" and a non-student
profile, for the SCHOOL-filter branch. -/
def pStu : Profile :=
  { id := 1, user_id := 7, profile_type := "STUDENT", parent_code := "",
    created_at := 5, tsVector := [], fields := [] }

def pPar : Profile :=
  { id := 2, user_id := 8, profile_type := "PARENT", parent_code := "",
    created_at := 3, tsVector := [], fields := [] }

def eCurrent : EducationRow :=
  { id := 20, profile_id := 1, institution_id := "I1", is_current := true,
    deleted := false }

def dbSchool : DB :=
  { profiles := [pStu, pPar], educations := [eCurrent], tables := [] }

/-- Twenty-five student profiles with distinct ids and creation times. -/
def db25 : DB :=
  { profiles := (List.range 25).map (fun i =>
      { id := i, user_id := i, profile_type := "STUDENT", parent_code := "",
        created_at := (i : Int), tsVector := [], fields := [] }),
    educations := [], tables := [] }

/-- Three plain profiles with distinct creation times, for the pagination
theorems. -/
def pA : Profile :=
  { id := 1, user_id := 1, profile_type := "STUDENT", parent_code := "",
    created_at := 1, tsVector := [], fields := [] }

def pB : Profile :=
  { id := 2, user_id := 2, profile_type := "STUDENT", parent_code := "",
    created_at := 3, tsVector := [], fields := [] }

def pC : Profile :=
  { id := 3, user_id := 3, profile_type := "STUDENT", parent_code := "",
    created_at := 2, tsVector := [], fields := [] }

def rowsThree : List ORow :=
  [ { profile := some pA, edu := none, tjoins := [] },
    { profile := some pB, edu := none, tjoins := [] },
    { profile := some pC, edu := none, tjoins := [] } ]

/-- A mapping entry over the logical field "INTEREST", backed by the
Activity table. -/
def interestEntry : MapEntry :=
  { table := "Activity", query_fields := ["name"], match_id := none }

/-- The query `get_searched_users` builds when no filter value at all is
supplied: `select().filter(UserProfile.profile_type ==
"STUDENT").outerjoin(Education).options(contains_eager(…)).distinct()`. -/
def noFilterQuery : SQ :=
  SQ.distinctQ (SQ.optionsEager (SQ.outerjoinEduBare
    (SQ.filterCond SQ.select (SymCond.profileTypeEq "STUDENT"))))

/-! ## Lemmas about splitting, joining and tsquery parsing -/

theorem splitOnP_nil (p : Char → Bool) : splitOnP p [] = [[]] := rfl

theorem splitOnP_cons (p : Char → Bool) (c : Char) (cs : List Char) :
    splitOnP p (c :: cs) =
      match splitOnP p cs with
      | [] => [[]]
      | piece :: ps => if p c then [] :: piece :: ps else (c :: piece) :: ps := rfl

theorem splitOnP_ne_nil (p : Char → Bool) (l : List Char) : splitOnP p l ≠ [] := by
  cases l with
  | nil => simp [splitOnP_nil]
  | cons c cs =>
    rw [splitOnP_cons]
    cases h : splitOnP p cs with
    | nil => simp
    | cons piece ps =>
      by_cases hc : p c = true <;> simp [hc]

theorem splitOnP_no_sep {p : Char → Bool} {l : List Char}
    (h : ∀ c ∈ l, p c = false) : splitOnP p l = [l] := by
  induction l with
  | nil => rfl
  | cons c cs ih =>
    have hc : p c = false := h c (List.mem_cons_self c cs)
    have ihcs : splitOnP p cs = [cs] :=
      ih (fun d hd => h d (List.mem_cons_of_mem c hd))
    rw [splitOnP_cons, ihcs]
    simp [hc]

theorem splitOnP_append_sep {p : Char → Bool} {l : List Char} {s : Char}
    {rest : List Char} (hl : ∀ c ∈ l, p c = false) (hs : p s = true) :
    splitOnP p (l ++ s :: rest) = l :: splitOnP p rest := by
  induction l with
  | nil =>
    simp only [List.nil_append]
    cases h : splitOnP p rest with
    | nil => exact absurd h (splitOnP_ne_nil p rest)
    | cons piece ps =>
      rw [splitOnP_cons, h]
      simp [hs]
  | cons c cs ih =>
    have hc : p c = false := hl c (List.mem_cons_self c cs)
    have ihcs := ih (fun d hd => hl d (List.mem_cons_of_mem c hd))
    simp only [List.cons_append]
    rw [splitOnP_cons, ihcs]
    simp [hc]

theorem joinChar_cons_of_ne {sep : Char} {x : List Char} {l : List (List Char)}
    (h : l ≠ []) : joinChar sep (x :: l) = x ++ sep :: joinChar sep l := by
  cases l with
  | nil => exact absurd rfl h
  | cons y ys => rfl

theorem joinChar_append_last (sep : Char) (ts : List (List Char))
    (t s : List Char) :
    joinChar sep (ts ++ [t]) ++ s = joinChar sep (ts ++ [t ++ s]) := by
  induction ts with
  | nil => simp [joinChar]
  | cons a as ih =>
    rw [List.cons_append, List.cons_append,
      joinChar_cons_of_ne (by simp), joinChar_cons_of_ne (by simp)]
    simp only [List.append_assoc, List.cons_append, ih]

theorem splitOnP_joinChar {p : Char → Bool} {sep : Char}
    (hs : p sep = true) :
    ∀ (ts : List (List Char)), ts ≠ [] →
      (∀ t ∈ ts, ∀ c ∈ t, p c = false) →
      splitOnP p (joinChar sep ts) = ts := by
  intro ts
  induction ts with
  | nil => intro h; exact absurd rfl h
  | cons t rest ih =>
    intro _ hch
    cases hr : rest with
    | nil =>
      simp only [joinChar]
      exact splitOnP_no_sep (hch t (List.mem_cons_self t rest))
    | cons u us =>
      rw [← hr, joinChar_cons_of_ne (by rw [hr]; simp)]
      rw [splitOnP_append_sep (hch t (List.mem_cons_self t rest)) hs]
      rw [ih (by rw [hr]; simp)
        (fun v hv c hc => hch v (List.mem_cons_of_mem t hv) c hc)]

theorem splitOnP_piece_chars {p : Char → Bool} :
    ∀ {l : List Char} {t : List Char}, t ∈ splitOnP p l →
      ∀ c ∈ t, c ∈ l ∧ p c = false := by
  intro l
  induction l with
  | nil =>
    intro t ht c hc
    rw [splitOnP_nil, List.mem_singleton] at ht
    subst ht
    simp at hc
  | cons d cs ih =>
    intro t ht c hc
    rw [splitOnP_cons] at ht
    cases hsplit : splitOnP p cs with
    | nil => exact absurd hsplit (splitOnP_ne_nil p cs)
    | cons piece ps =>
      rw [hsplit] at ht
      dsimp only at ht
      by_cases hd : p d = true
      · rw [if_pos hd] at ht
        rcases List.mem_cons.mp ht with rfl | ht2
        · simp at hc
        · have hmem : t ∈ splitOnP p cs := by rw [hsplit]; exact ht2
          have h2 := ih hmem c hc
          exact ⟨List.mem_cons_of_mem d h2.1, h2.2⟩
      · rw [if_neg hd] at ht
        rcases List.mem_cons.mp ht with rfl | ht2
        · rcases List.mem_cons.mp hc with rfl | hc2
          · exact ⟨List.mem_cons_self c cs, by simpa using hd⟩
          · have hmem : piece ∈ splitOnP p cs := by
              rw [hsplit]; exact List.mem_cons_self piece ps
            have h2 := ih hmem c hc2
            exact ⟨List.mem_cons_of_mem d h2.1, h2.2⟩
        · have hmem : t ∈ splitOnP p cs := by
            rw [hsplit]; exact List.mem_cons_of_mem piece ht2
          have h2 := ih hmem c hc
          exact ⟨List.mem_cons_of_mem d h2.1, h2.2⟩

theorem pyTokens_chars {s : String} {t : List Char} (ht : t ∈ pyTokens s) :
    ∀ c ∈ t, c ∈ s.data ∧ c.isWhitespace = false := by
  intro c hc
  unfold pyTokens at ht
  have ht' := List.mem_of_mem_filter ht
  exact splitOnP_piece_chars ht' c hc

theorem sanitize_chars {text : String} {c : Char}
    (h : c ∈ (sanitize text).data) : pyKeep c = true := by
  unfold sanitize at h
  simp only [String.data] at h
  exact (List.mem_filter.mp h).2

theorem pyKeep_excludes {c : Char} (h : pyKeep c = true) :
    c ≠ '&' ∧ c ≠ ':' ∧ c ≠ '*' := by
  refine ⟨?_, ?_, ?_⟩ <;> rintro rfl <;> simp [pyKeep] at h

theorem sanitize_token_chars {text : String} {t : List Char}
    (ht : t ∈ pyTokens (sanitize text)) :
    ∀ c ∈ t, pyKeep c = true := by
  intro c hc
  exact sanitize_chars (pyTokens_chars ht c hc).1

theorem parseTsAtom_marker (t : List Char) :
    parseTsAtom (t ++ [':', '*']) = TsAtom.pfx t := by
  have h : (t ++ [':', '*']).reverse = '*' :: ':' :: t.reverse := by simp
  unfold parseTsAtom
  rw [h]
  simp

theorem parseTsAtom_plain {t : List Char} (h : ∀ c ∈ t, pyKeep c = true) :
    parseTsAtom t = TsAtom.lexeme t := by
  unfold parseTsAtom
  split
  · rename_i c1 c2 rest heq
    have hc2 : c2 ∈ t := by
      have hm : c2 ∈ t.reverse := by rw [heq]; simp
      exact List.mem_reverse.mp hm
    have hne := (pyKeep_excludes (h c2 hc2)).2.1
    have hcond : ¬((c1 == '*' && c2 == ':') = true) := by
      simp only [Bool.and_eq_true, beq_iff_eq]
      rintro ⟨-, h2⟩
      exact hne h2
    rw [if_neg hcond]
  · rfl

theorem parseTsQuery_matchArg {text : String}
    (hne : pyTokens (sanitize text) ≠ []) :
    parseTsQuery (suggestedMatchArg text) =
      (pyTokens (sanitize text)).dropLast.map TsAtom.lexeme ++
        [TsAtom.pfx ((pyTokens (sanitize text)).getLastD [])] := by
  set ts := pyTokens (sanitize text) with hts
  have hchars : ∀ t ∈ ts, ∀ c ∈ t, pyKeep c = true := by
    intro t ht c hc
    exact sanitize_token_chars (hts ▸ ht) c hc
  obtain ⟨i, l, hil⟩ : ∃ i l, ts = i ++ [l] :=
    ⟨ts.dropLast, ts.getLast hne, (List.dropLast_append_getLast hne).symm⟩
  have hchars' : ∀ t ∈ i ++ [l ++ [':', '*']], ∀ c ∈ t, (c == '&') = false := by
    intro t ht c hc
    rcases List.mem_append.mp ht with hti | htl
    · have := (pyKeep_excludes (hchars t (hil ▸ List.mem_append_left [l] hti) c hc)).1
      simpa using this
    · rw [List.mem_singleton] at htl
      subst htl
      rcases List.mem_append.mp hc with hcl | hcm
      · have hlm : l ∈ ts := hil ▸ List.mem_append_right i (List.mem_singleton.mpr rfl)
        have := (pyKeep_excludes (hchars l hlm c hcl)).1
        simpa using this
      · rcases List.mem_cons.mp hcm with rfl | hcm2
        · decide
        · rw [List.mem_singleton] at hcm2
          subst hcm2
          decide
  have hsplit : splitOnP (fun c => c == '&') (joinChar '&' ts ++ [':', '*']) =
      i ++ [l ++ [':', '*']] := by
    rw [hil, joinChar_append_last]
    exact splitOnP_joinChar (by decide) (i ++ [l ++ [':', '*']]) (by simp) hchars'
  unfold parseTsQuery suggestedMatchArg
  simp only [String.data]
  rw [hsplit, List.map_append]
  congr 1
  · rw [hil, List.dropLast_concat]
    apply List.map_congr_left
    intro t ht
    exact parseTsAtom_plain (fun c hc =>
      hchars t (hil ▸ List.mem_append_left [l] ht) c hc)
  · rw [hil, List.getLastD_concat]
    simp [parseTsAtom_marker]

theorem tsMatch_matchArg {doc : List String} {text : String}
    (hne : pyTokens (sanitize text) ≠ []) :
    tsMatch doc (suggestedMatchArg text) = true ↔
      ((∀ t ∈ (pyTokens (sanitize text)).dropLast, ∃ d ∈ doc, d.data = t) ∧
        ∃ d ∈ doc,
          ((pyTokens (sanitize text)).getLastD []).isPrefixOf d.data = true) := by
  unfold tsMatch
  rw [parseTsQuery_matchArg hne]
  rw [List.all_append]
  simp only [Bool.and_eq_true, List.all_eq_true, List.mem_map,
    List.mem_singleton, forall_eq]
  constructor
  · rintro ⟨h1, h2⟩
    constructor
    · intro t ht
      have := h1 (TsAtom.lexeme t) ⟨t, ht, rfl⟩
      simp only [tsAtomMatches, List.any_eq_true, beq_iff_eq] at this
      exact this
    · simp only [tsAtomMatches, List.any_eq_true] at h2
      exact h2
  · rintro ⟨h1, h2⟩
    constructor
    · rintro a ⟨t, ht, rfl⟩
      simp only [tsAtomMatches, List.any_eq_true, beq_iff_eq]
      exact h1 t ht
    · simp only [tsAtomMatches, List.any_eq_true]
      exact h2

theorem pyTokens_empty_string : pyTokens (sanitize "") = [] := by decide

/-! ## Lemmas about join evaluation -/

theorem joinEduRows_left_profile {onCond : Profile → EducationRow → Bool}
    {db : DB} {rows : List ORow} {r' : ORow}
    (h : r' ∈ joinEduRows false onCond db rows) :
    ∃ r ∈ rows, r'.profile = r.profile := by
  unfold joinEduRows at h
  simp only [Bool.false_eq_true, if_false, List.append_nil] at h
  obtain ⟨r, hr, hmem⟩ := List.mem_flatMap.mp h
  refine ⟨r, hr, ?_⟩
  cases hp : r.profile with
  | none =>
    rw [hp] at hmem
    rw [List.mem_singleton] at hmem
    subst hmem
    rfl
  | some p =>
    rw [hp] at hmem
    dsimp only at hmem
    cases hf : db.educations.filter (onCond p) with
    | nil =>
      rw [hf] at hmem
      rw [List.mem_singleton] at hmem
      subst hmem
      rfl
    | cons e es =>
      rw [hf] at hmem
      obtain ⟨e', _, he'⟩ := List.mem_map.mp hmem
      subst he'
      rfl

theorem joinEduRows_exists {onCond : Profile → EducationRow → Bool}
    {db : DB} {rows : List ORow} {r : ORow} (full : Bool) (h : r ∈ rows) :
    ∃ r' ∈ joinEduRows full onCond db rows, r'.profile = r.profile := by
  unfold joinEduRows
  have hmain : ∃ r', r' ∈ rows.flatMap (fun r =>
      match r.profile with
      | none => [{ r with edu := none }]
      | some p =>
        match db.educations.filter (onCond p) with
        | [] => [{ r with edu := none }]
        | es => es.map (fun e => { r with edu := some e })) ∧
      r'.profile = r.profile := by
    cases hp : r.profile with
    | none =>
      refine ⟨{ r with edu := none }, List.mem_flatMap.mpr ⟨r, h, ?_⟩, hp⟩
      rw [hp]
      dsimp only
      exact List.mem_singleton.mpr rfl
    | some p =>
      cases hf : db.educations.filter (onCond p) with
      | nil =>
        refine ⟨{ r with edu := none }, List.mem_flatMap.mpr ⟨r, h, ?_⟩, hp⟩
        rw [hp]
        dsimp only
        rw [hf]
        exact List.mem_singleton.mpr rfl
      | cons e es =>
        refine ⟨{ r with edu := some e }, List.mem_flatMap.mpr ⟨r, h, ?_⟩, hp⟩
        rw [hp]
        dsimp only
        rw [hf]
        dsimp only
        exact List.mem_map.mpr ⟨e, List.mem_cons_self e es, rfl⟩
  obtain ⟨r', hr', hprof⟩ := hmain
  exact ⟨r', List.mem_append_left _ hr', hprof⟩

/-- Membership of a profile in the rows of the `get_suggested_users` query
with empty include/exclude lists is exactly the full-text filter. -/
theorem mem_sugRows_iff {db : DB} {uid : Nat} {text : String} {p : Profile}
    (hp : p ∈ db.profiles) (huid : p.user_id ≠ uid)
    (htext : text ≠ "") :
    (∃ r ∈ sugRows db uid [] [] text, r.profile = some p) ↔
      tsMatch p.tsVector (suggestedMatchArg text) = true := by
  unfold sugRows
  simp only [ne_eq, not_true_eq_false, if_false, if_pos htext]
  constructor
  · rintro ⟨r, hr, hprof⟩
    have h1 := List.mem_filter.mp hr
    have hts := h1.2
    rw [hprof] at hts
    exact hts
  · intro hts
    have hb : ({ profile := some p, edu := none, tjoins := [] } : ORow) ∈ baseRows db := by
      unfold baseRows
      exact List.mem_map.mpr ⟨p, hp, rfl⟩
    obtain ⟨r', hr', hprof⟩ :=
      @joinEduRows_exists eduOnCurrent db (baseRows db) _ false hb
    refine ⟨r', ?_, hprof⟩
    refine List.mem_filter.mpr ⟨List.mem_filter.mpr ⟨hr', ?_⟩, ?_⟩
    · rw [hprof]
      simpa using huid
    · rw [hprof]
      exact hts

/-! ## C1: full-text prefix matching in `get_suggested_users` -/

/-- C1 (counterexample): for input "Jane Doe", the profile with indexed
text ["Janet", "Doe"] contains words with prefixes "Jane" and "Doe", yet is
not selected by the text filter of `get_suggested_users` — the generated
tsquery "Jane&Doe:*" demands the exact lexeme "Jane", because the `:*`
prefix marker is appended once at the end and applies to the last token
only.  This refutes the claim that every token is matched as a prefix. -/
theorem suggested_every_token_as_prefix_counterexample :
    (∀ t ∈ pyTokens (sanitize "Jane Doe"),
      ∃ d ∈ pJanet.tsVector, t.isPrefixOf d.data = true) ∧
    ¬ (∃ r ∈ sugRows dbJanet 3 [] [] "Jane Doe", r.profile = some pJanet) := by
  decide

/-- C1 (amended): for every non-empty free-text input to
`get_suggested_users`, the text is sanitized to keep only alphanumerics,
periods, hyphens and spaces, the whitespace-separated tokens are AND-joined
with a single `:*` appended after the final token, and a profile passes the
text filter iff every token except the last occurs in its search vector as
an exact lexeme and the last token is a prefix of some indexed word. -/
theorem suggested_text_filter_spec (db : DB) (uid : Nat) (text : String)
    (p : Profile) (hp : p ∈ db.profiles) (huid : p.user_id ≠ uid)
    (htok : pyTokens (sanitize text) ≠ []) :
    (∃ r ∈ sugRows db uid [] [] text, r.profile = some p) ↔
      ((∀ t ∈ (pyTokens (sanitize text)).dropLast, ∃ d ∈ p.tsVector, d.data = t) ∧
        ∃ d ∈ p.tsVector,
          ((pyTokens (sanitize text)).getLastD []).isPrefixOf d.data = true) := by
  have htext : text ≠ "" := by
    rintro rfl
    exact htok pyTokens_empty_string
  rw [mem_sugRows_iff hp huid htext]
  exact tsMatch_matchArg htok

/-- C1 (witness): a profile with indexed text ["Jane", "Doedel"] is
selected for input "Jane Doe": the first token matches the lexeme "Jane"
exactly and the last token "Doe" is a prefix of "Doedel". -/
theorem suggested_text_filter_spec_witness :
    (∃ r ∈ sugRows dbJane 3 [] [] "Jane Doe", r.profile = some pJane) ↔
      ((∀ t ∈ (pyTokens (sanitize "Jane Doe")).dropLast,
          ∃ d ∈ pJane.tsVector, d.data = t) ∧
        ∃ d ∈ pJane.tsVector,
          ((pyTokens (sanitize "Jane Doe")).getLastD []).isPrefixOf d.data = true) :=
  suggested_text_filter_spec dbJane 3 "Jane Doe" pJane (by decide) (by decide)
    (by decide)

/-! ## Lemmas about entity collapse and pagination -/

theorem collapse_nil : collapse [] = [] := rfl

theorem collapse_cons_none {r : ORow} {rs : List ORow} (hp : r.profile = none) :
    collapse (r :: rs) = collapse rs := by
  simp only [collapse]
  rw [hp]

theorem collapse_cons_some {r : ORow} {rs : List ORow} {p : Profile}
    (hp : r.profile = some p) :
    collapse (r :: rs) =
      (p, (r :: rs).filterMap (fun r2 => if rowHasId p.id r2 then r2.edu else none)) ::
        (collapse rs).filter (fun x => !(x.1.id == p.id)) := by
  simp only [collapse]
  rw [hp]

theorem collapse_length_le : ∀ (l : List ORow), (collapse l).length ≤ l.length := by
  intro l
  induction l with
  | nil => simp [collapse_nil]
  | cons r rs ih =>
    cases hp : r.profile with
    | none =>
      rw [collapse_cons_none hp]
      exact le_trans ih (Nat.le_succ _)
    | some p =>
      rw [collapse_cons_some hp]
      simp only [List.length_cons]
      exact Nat.succ_le_succ (le_trans (List.length_filter_le _ _) ih)

theorem collapse_mem : ∀ {l : List ORow} {x : Profile × List EducationRow},
    x ∈ collapse l → ∃ r ∈ l, r.profile = some x.1 := by
  intro l
  induction l with
  | nil => intro x hx; rw [collapse_nil] at hx; simp at hx
  | cons r rs ih =>
    intro x hx
    cases hp : r.profile with
    | none =>
      rw [collapse_cons_none hp] at hx
      obtain ⟨r', hr', he⟩ := ih hx
      exact ⟨r', List.mem_cons_of_mem r hr', he⟩
    | some p =>
      rw [collapse_cons_some hp] at hx
      rcases List.mem_cons.mp hx with rfl | hx2
      · exact ⟨r, List.mem_cons_self r rs, hp⟩
      · obtain ⟨r', hr', he⟩ := ih (List.mem_of_mem_filter hx2)
        exact ⟨r', List.mem_cons_of_mem r hr', he⟩

theorem collapse_pairwise {R : Profile → Profile → Prop} :
    ∀ {l : List ORow},
      l.Pairwise (fun a b => ∀ pa pb,
        a.profile = some pa → b.profile = some pb → R pa pb) →
      (collapse l).Pairwise (fun a b => R a.1 b.1) := by
  intro l
  induction l with
  | nil => intro _; rw [collapse_nil]; exact List.Pairwise.nil
  | cons r rs ih =>
    intro h
    have hd := (List.pairwise_cons.mp h).1
    have htl := (List.pairwise_cons.mp h).2
    cases hp : r.profile with
    | none =>
      rw [collapse_cons_none hp]
      exact ih htl
    | some p =>
      rw [collapse_cons_some hp]
      refine List.Pairwise.cons ?_
        (List.Pairwise.sublist (List.filter_sublist _) (ih htl))
      intro y hy
      obtain ⟨r', hr', he⟩ := collapse_mem (List.mem_of_mem_filter hy)
      exact hd r' hr' p y.1 hp he

theorem sortRows_sorted (rows : List ORow) :
    (sortRows rows).Pairwise rowGE :=
  List.sorted_insertionSort rowGE rows

theorem sortRows_perm (rows : List ORow) : (sortRows rows).Perm rows :=
  List.perm_insertionSort rowGE rows

/-! ## C3 and C4: the pagination helper -/

/-- C3: for every base row set and valid `page ≥ 1`, `page_size ≥ 1`,
`paginate_users` succeeds, returns at most `page_size` items, which are the
collapsed entities of the window at offset `(page-1)*page_size` of the rows
sorted by creation time descending (newest first), and metadata whose
`total` is the count of all rows ignoring the page window. -/
theorem paginate_users_page_window (rows : List ORow) (page page_size : Int)
    (h1 : 1 ≤ page) (h2 : 1 ≤ page_size) :
    ∃ items meta, paginate_users rows page page_size = Except.ok (items, meta) ∧
      items.length ≤ page_size.toNat ∧
      meta = { page := page, page_size := page_size, total := rows.length } ∧
      items = collapse
        (((sortRows rows).drop ((page - 1) * page_size).toNat).take page_size.toNat) ∧
      items.Pairwise (fun a b => b.1.created_at ≤ a.1.created_at) := by
  have hg1 : ¬ page ≤ 0 := by omega
  have hg2 : ¬ page_size ≤ 0 := by omega
  refine ⟨_, _, ?_, ?_, rfl, rfl, ?_⟩
  · unfold paginate_users
    rw [if_neg hg1, if_neg hg2]
  · exact le_trans (collapse_length_le _) (List.length_take_le _ _)
  · have hsorted := sortRows_sorted rows
    have hdrop : (((sortRows rows).drop ((page - 1) * page_size).toNat).take
        page_size.toNat).Pairwise rowGE :=
      List.Pairwise.sublist
        (List.Sublist.trans (List.take_sublist _ _) (List.drop_sublist _ _)) hsorted
    refine collapse_pairwise (R := fun pa pb => pb.created_at ≤ pa.created_at)
      (List.Pairwise.imp ?_ hdrop)
    intro a b hab pa pb hpa hpb
    unfold rowGE rowKey at hab
    rw [hpa, hpb] at hab
    simpa [ogeKey] using hab

/-- C3 (witness): three rows, page 2 of size 1. -/
theorem paginate_users_page_window_witness :
    ∃ items meta, paginate_users rowsThree 2 1 = Except.ok (items, meta) ∧
      items.length ≤ (1 : Int).toNat ∧
      meta = { page := 2, page_size := 1, total := rowsThree.length } ∧
      items = collapse
        (((sortRows rowsThree).drop ((2 - 1) * 1 : Int).toNat).take (1 : Int).toNat) ∧
      items.Pairwise (fun a b => b.1.created_at ≤ a.1.created_at) :=
  paginate_users_page_window rowsThree 2 1 (by decide) (by decide)

/-- C4: `paginate_users` fails with the domain validation error exactly when
`page < 1` or `page_size < 1`, and in that case the two read queries (count
and windowed fetch) are never issued. -/
theorem paginate_users_validates (rows : List ORow) (page page_size : Int) :
    ((∃ e, paginate_users rows page page_size = Except.error e) ↔
      (page < 1 ∨ page_size < 1)) ∧
    ((page < 1 ∨ page_size < 1) → paginate_queries_issued page page_size = 0) := by
  constructor
  · unfold paginate_users
    by_cases hg1 : page ≤ 0
    · rw [if_pos hg1]
      simp only [Except.error.injEq, exists_eq']
      constructor
      · intro _; left; omega
      · intro _; trivial
    · rw [if_neg hg1]
      by_cases hg2 : page_size ≤ 0
      · rw [if_pos hg2]
        simp only [Except.error.injEq, exists_eq']
        constructor
        · intro _; right; omega
        · intro _; trivial
      · rw [if_neg hg2]
        constructor
        · rintro ⟨e, he⟩; exact absurd he (by simp)
        · intro h; omega
  · intro h
    unfold paginate_queries_issued
    rcases h with h | h
    · rw [if_pos (by omega)]
    · by_cases hg1 : page ≤ 0
      · rw [if_pos hg1]
      · rw [if_neg hg1, if_pos (by omega)]

/-- C4 (witness): `page = 0` fails and issues no queries. -/
theorem paginate_users_validates_witness :
    (∃ e, paginate_users ([] : List ORow) 0 5 = Except.error e) ∧
      paginate_queries_issued 0 5 = 0 :=
  ⟨(paginate_users_validates [] 0 5).1.mpr (Or.inl (by decide)),
    (paginate_users_validates [] 0 5).2 (Or.inl (by decide))⟩

/-! ## C6 and C7: the builder loop of `get_searched_users` -/

theorem gatherQueryParam_nil {params : SearchUsersParams} {names : List String}
    (h : ∀ name ∈ names, params.get name = []) :
    gatherQueryParam params names = [] := by
  unfold gatherQueryParam
  have key : ∀ (ns : List String), (∀ name ∈ ns, params.get name = []) →
      ∀ (acc : List String),
        ns.foldl (fun acc name => acc ++ params.get name) acc = acc := by
    intro ns
    induction ns with
    | nil => intro _ acc; rfl
    | cons n ns ih =>
      intro hns acc
      rw [List.foldl_cons, hns n (List.mem_cons_self n ns), List.append_nil]
      exact ih (fun m hm => hns m (List.mem_cons_of_mem n hm)) acc
  exact key names h []

theorem processItem_skip {params : SearchUsersParams}
    (st : Option SQ × List SymCond) {names : List String} (entry : MapEntry)
    (h : ∀ name ∈ names, params.get name = []) :
    processItem params st { names := names, entry := some entry } = st := by
  unfold processItem
  dsimp only
  rw [gatherQueryParam_nil h]
  simp

/-- C6: a mapping entry for whose field names the supplied parameters hold
no values contributes neither a join nor a filter: the builder state after
the loop, and the whole generated query, are identical to those generated
with the entry absent from the mapping. -/
theorem searched_users_skips_empty_entries (params : SearchUsersParams)
    (pre post : List MappingItem) (names : List String) (entry : MapEntry)
    (h : ∀ name ∈ names, params.get name = []) :
    processMapping params (pre ++ { names := names, entry := some entry } :: post) =
      processMapping params (pre ++ post) ∧
    buildSearchedQuery params (pre ++ { names := names, entry := some entry } :: post) =
      buildSearchedQuery params (pre ++ post) := by
  have hfold : processMapping params
      (pre ++ { names := names, entry := some entry } :: post) =
      processMapping params (pre ++ post) := by
    unfold processMapping
    rw [List.foldl_append, List.foldl_append, List.foldl_cons,
      processItem_skip _ entry h]
  exact ⟨hfold, by unfold buildSearchedQuery; rw [hfold]⟩

/-- C6 (witness): with only a SCHOOL value supplied, an extra
Activity-backed entry over the field "INTEREST" leaves the generated query
unchanged. -/
theorem searched_users_skips_empty_entries_witness :
    processMapping paramsSchool
      ([] ++ { names := ["INTEREST"], entry := some interestEntry } ::
        PROFILE_QUERY_PARAMS_MAPPING) =
      processMapping paramsSchool ([] ++ PROFILE_QUERY_PARAMS_MAPPING) ∧
    buildSearchedQuery paramsSchool
      ([] ++ { names := ["INTEREST"], entry := some interestEntry } ::
        PROFILE_QUERY_PARAMS_MAPPING) =
      buildSearchedQuery paramsSchool ([] ++ PROFILE_QUERY_PARAMS_MAPPING) :=
  searched_users_skips_empty_entries paramsSchool []
    PROFILE_QUERY_PARAMS_MAPPING ["INTEREST"] interestEntry (by decide)

/-- C7: after the builder loop, if any IN-conditions were collected they are
attached as a single filter holding their disjunction (over `select()` when
no join was built); if none were collected, no filter is attached and the
query is left as the loop produced it. -/
theorem searched_users_or_combines (params : SearchUsersParams)
    (mapping : List MappingItem) :
    ((processMapping params mapping).2 = [] →
      applyConditions (processMapping params mapping) =
        (processMapping params mapping).1) ∧
    ((processMapping params mapping).2 ≠ [] →
      applyConditions (processMapping params mapping) =
        some (SQ.filterOr ((processMapping params mapping).1.getD SQ.select)
          (processMapping params mapping).2)) := by
  constructor
  · intro h
    unfold applyConditions
    rw [if_pos (by simp [h])]
  · intro h
    unfold applyConditions
    rw [if_neg (by simpa [List.isEmpty_iff] using h)]
    cases hq : (processMapping params mapping).1 with
    | none => rfl
    | some q => rfl

/-- C7 (witness): supplying a profile-type value collects one condition and
attaches it as a single OR filter. -/
theorem searched_users_or_combines_witness :
    applyConditions (processMapping paramsProfileType PROFILE_QUERY_PARAMS_MAPPING) =
      some (SQ.filterOr
        ((processMapping paramsProfileType PROFILE_QUERY_PARAMS_MAPPING).1.getD SQ.select)
        (processMapping paramsProfileType PROFILE_QUERY_PARAMS_MAPPING).2) :=
  (searched_users_or_combines paramsProfileType PROFILE_QUERY_PARAMS_MAPPING).2
    (by decide)

/-! ## C9: `search_profile_users` can never return -/

/-- C9: `search_profile_users` builds its query and then evaluates
`Page(items=items, **page_metadata.dict())` with `items` and
`page_metadata` unbound, so every call raises NameError and none returns a
value. -/
theorem search_profile_users_raises (db : DB) (user_id : Nat)
    (params : SearchUsersParams) :
    search_profile_users db user_id params =
      Except.error "NameError: name items is not defined" ∧
    ∀ x, search_profile_users db user_id params ≠ Except.ok x := by
  refine ⟨rfl, ?_⟩
  intro x h
  simp [search_profile_users] at h

/-! ## C2: soft-deleted / non-current educations in read results -/

/-- C2 (failing input): `get_searched_users` with no filters at all, on a
database holding one STUDENT profile with one soft-deleted and one
non-current education row.  The no-SCHOOL branch outer-joins `Education`
with no `is_current`/`deleted` condition and eager-attaches the joined
rows, so both rows appear in the returned profile's educations — while
`get_by_user_id` on the same database correctly attaches neither. -/
theorem searched_users_attaches_deleted_education :
    get_searched_users dbBug 1 10 paramsEmpty PROFILE_QUERY_PARAMS_MAPPING =
      Except.ok ([(pBug, [eDeleted, eNotCurrent])],
        { page := 1, page_size := 10, total := 2 }) ∧
    eDeleted.deleted = true ∧ eNotCurrent.is_current = false ∧
    get_by_user_id dbBug 7 = some (pBug, []) := by
  decide

/-! ## C8: the extra-results helper and its disabled call site -/

/-- C8: `_extra_count` returns `max(page * page_size - total, 0)`, and the
top-up is never invoked on the production path: the metadata returned by
`get_searched_users` is exactly the metadata `paginate_users` produced,
whose `total` is the full row count of the built query. -/
theorem extra_count_and_topup_disabled (db : DB) (page page_size : Int)
    (params : SearchUsersParams) (mapping : List MappingItem)
    (items : List (Profile × List EducationRow)) (meta : PageMetadata)
    (hok : get_searched_users db page page_size params mapping =
      Except.ok (items, meta)) :
    meta = { page := page, page_size := page_size,
             total := (evalSQ db (buildSearchedQuery params mapping)).length } ∧
    ∀ (c : Nat) (m : PageMetadata),
      _extra_count c m = max (m.page * m.page_size - (m.total : Int)) 0 := by
  refine ⟨?_, fun c m => rfl⟩
  unfold get_searched_users paginate_users at hok
  by_cases hg1 : page ≤ 0
  · rw [if_pos hg1] at hok
    exact absurd hok (by simp)
  · rw [if_neg hg1] at hok
    by_cases hg2 : page_size ≤ 0
    · rw [if_pos hg2] at hok
      exact absurd hok (by simp)
    · rw [if_neg hg2] at hok
      simp only [Except.ok.injEq, Prod.mk.injEq] at hok
      exact hok.2.symm

/-- C8 (witness): a successful search call on the school example. -/
theorem extra_count_and_topup_disabled_witness :
    ({ page := 1, page_size := 10, total := 1 } : PageMetadata) =
      { page := 1, page_size := 10,
        total := (evalSQ dbSchool
            (buildSearchedQuery paramsSchool PROFILE_QUERY_PARAMS_MAPPING)).length } ∧
    ∀ (c : Nat) (m : PageMetadata),
      _extra_count c m = max (m.page * m.page_size - (m.total : Int)) 0 :=
  extra_count_and_topup_disabled dbSchool 1 10 paramsSchool
    PROFILE_QUERY_PARAMS_MAPPING [(pStu, [eCurrent])]
    { page := 1, page_size := 10, total := 1 } (by decide)

/-! ## Lemmas about `dedupFirst`, `evalSQ` and pagination membership -/

theorem dedupFirst_mem_iff {α : Type} [DecidableEq α] :
    ∀ {l : List α} {x : α}, x ∈ dedupFirst l ↔ x ∈ l := by
  intro l
  induction l with
  | nil => intro x; simp [dedupFirst]
  | cons y ys ih =>
    intro x
    simp only [dedupFirst]
    constructor
    · intro hx
      rcases List.mem_cons.mp hx with rfl | hx2
      · exact List.mem_cons_self x ys
      · exact List.mem_cons_of_mem y (ih.mp (List.mem_of_mem_filter hx2))
    · intro hx
      rcases List.mem_cons.mp hx with rfl | hx2
      · exact List.mem_cons_self x _
      · by_cases hxy : x = y
        · subst hxy; exact List.mem_cons_self x _
        · exact List.mem_cons_of_mem y
            (List.mem_filter.mpr ⟨ih.mpr hx2, by simp [hxy]⟩)

theorem dedupFirst_of_nodup {α : Type} [DecidableEq α] :
    ∀ {l : List α}, l.Nodup → dedupFirst l = l := by
  intro l
  induction l with
  | nil => intro _; rfl
  | cons y ys ih =>
    intro h
    have hy : y ∉ ys := (List.nodup_cons.mp h).1
    simp only [dedupFirst]
    rw [ih (List.nodup_cons.mp h).2]
    rw [List.filter_eq_self.mpr ?_]
    intro a ha
    simp only [ne_eq, decide_eq_true_eq]
    rintro rfl
    exact hy ha

theorem evalSQ_mem_wheres {db : DB} {q : SQ} {r : ORow}
    (hr : r ∈ evalSQ db q) :
    ∀ g ∈ sqWheres q, g.any (condHolds r) = true := by
  simp only [evalSQ] at hr
  have hfil : r ∈ ((sqJoins q).foldl (evalJoin db) (baseRows db)).filter
      (fun r => (sqWheres q).all (fun group => group.any (condHolds r))) := by
    by_cases hd : sqDistinct q = true
    · rw [if_pos hd] at hr
      exact dedupFirst_mem_iff.mp hr
    · rw [if_neg hd] at hr
      exact hr
  have hall := (List.mem_filter.mp hfil).2
  exact List.all_eq_true.mp hall

theorem condHolds_profileType {r : ORow} {v : String}
    (h : condHolds r (SymCond.profileTypeEq v) = true) :
    ∃ p, r.profile = some p ∧ p.profile_type = v := by
  unfold condHolds at h
  cases hp : r.profile with
  | none => rw [hp] at h; simp at h
  | some p =>
    rw [hp] at h
    exact ⟨p, rfl, by simpa using h⟩

/-- Every item returned by `paginate_users` comes from some row of the
query it paginated. -/
theorem paginate_users_item_mem {rows : List ORow} {page page_size : Int}
    {items : List (Profile × List EducationRow)} {meta : PageMetadata}
    (hok : paginate_users rows page page_size = Except.ok (items, meta))
    {x : Profile × List EducationRow} (hx : x ∈ items) :
    ∃ r ∈ rows, r.profile = some x.1 := by
  unfold paginate_users at hok
  by_cases hg1 : page ≤ 0
  · rw [if_pos hg1] at hok; exact absurd hok (by simp)
  · rw [if_neg hg1] at hok
    by_cases hg2 : page_size ≤ 0
    · rw [if_pos hg2] at hok; exact absurd hok (by simp)
    · rw [if_neg hg2] at hok
      simp only [Except.ok.injEq, Prod.mk.injEq] at hok
      rw [← hok.1] at hx
      obtain ⟨r, hr, hprof⟩ := collapse_mem hx
      have hr2 : r ∈ sortRows rows :=
        (List.Sublist.trans (List.take_sublist _ _) (List.drop_sublist _ _)).mem hr
      exact ⟨r, (sortRows_perm rows).mem_iff.mp hr2, hprof⟩

/-! ## C10: the SCHOOL branch also restricts to STUDENT profiles -/

theorem schoolStep_wheres_student {params : SearchUsersParams} {q : Option SQ}
    (h : params.get "SCHOOL" ≠ []) :
    [SymCond.profileTypeEq "STUDENT"] ∈ sqWheres (schoolStep params q) := by
  have hne : ¬ ((params.get "SCHOOL").isEmpty = true) := by
    simpa [List.isEmpty_iff] using h
  cases q with
  | none =>
    unfold schoolStep
    dsimp only
    rw [if_neg hne]
    unfold _add_education_query
    simp [sqWheres]
  | some q' =>
    unfold schoolStep
    dsimp only
    rw [if_neg hne]
    unfold _add_education_query
    simp [sqWheres]

theorem buildSearchedQuery_wheres_student {params : SearchUsersParams}
    {mapping : List MappingItem} (h : params.get "SCHOOL" ≠ []) :
    [SymCond.profileTypeEq "STUDENT"] ∈ sqWheres (buildSearchedQuery params mapping) := by
  unfold buildSearchedQuery
  simp only [sqWheres]
  exact schoolStep_wheres_student h

/-- C10: whenever SCHOOL institution ids are supplied, the school-filter
branch (`_add_education_query`) also filters on `profile_type ==
"STUDENT"`, so no non-STUDENT profile is ever returned. -/
theorem searched_users_school_filter_student_only (db : DB)
    (page page_size : Int) (params : SearchUsersParams)
    (mapping : List MappingItem)
    (items : List (Profile × List EducationRow)) (meta : PageMetadata)
    (hschool : params.get "SCHOOL" ≠ [])
    (hok : get_searched_users db page page_size params mapping =
      Except.ok (items, meta)) :
    ∀ x ∈ items, x.1.profile_type = "STUDENT" := by
  intro x hx
  unfold get_searched_users at hok
  obtain ⟨r, hr, hprof⟩ := paginate_users_item_mem hok hx
  have hall := evalSQ_mem_wheres hr _ (buildSearchedQuery_wheres_student hschool)
  have hcond : condHolds r (SymCond.profileTypeEq "STUDENT") = true := by
    simpa using hall
  obtain ⟨p, hp, htype⟩ := condHolds_profileType hcond
  rw [hprof] at hp
  rw [Option.some.inj hp]
  exact htype

/-- C10 (witness): the school example returns only the STUDENT profile. -/
theorem searched_users_school_filter_student_only_witness :
    pStu.profile_type = "STUDENT" :=
  searched_users_school_filter_student_only dbSchool 1 10 paramsSchool
    PROFILE_QUERY_PARAMS_MAPPING [(pStu, [eCurrent])]
    { page := 1, page_size := 10, total := 1 } (by decide) (by decide)
    (pStu, [eCurrent]) (List.mem_singleton.mpr rfl)

/-! ## C5: no filters at all degenerates to "all STUDENT profiles" -/

theorem processItem_const {params : SearchUsersParams}
    (h : ∀ name, params.get name = []) (st : Option SQ × List SymCond)
    (item : MappingItem) : processItem params st item = st := by
  obtain ⟨names, entry⟩ := item
  cases entry with
  | none => rfl
  | some e =>
    unfold processItem
    dsimp only
    rw [gatherQueryParam_nil (fun name _ => h name)]
    simp

theorem processMapping_empty {params : SearchUsersParams}
    (h : ∀ name, params.get name = []) (mapping : List MappingItem) :
    processMapping params mapping = (none, []) := by
  unfold processMapping
  have key : ∀ (ms : List MappingItem) (st : Option SQ × List SymCond),
      ms.foldl (processItem params) st = st := by
    intro ms
    induction ms with
    | nil => intro st; rfl
    | cons m ms ih =>
      intro st
      rw [List.foldl_cons, processItem_const h st m]
      exact ih st
  exact key mapping _

theorem buildSearchedQuery_empty {params : SearchUsersParams}
    {mapping : List MappingItem} (h : ∀ name, params.get name = []) :
    buildSearchedQuery params mapping = noFilterQuery := by
  unfold buildSearchedQuery
  rw [processMapping_empty h]
  have h1 : applyConditions ((none : Option SQ), ([] : List SymCond)) = none := rfl
  rw [h1]
  unfold schoolStep noFilterQuery
  dsimp only
  rw [h "SCHOOL"]
  rfl

theorem evalSQ_noFilter (db : DB) :
    evalSQ db noFilterQuery =
      dedupFirst ((joinEduRows false eduOnBare db (baseRows db)).filter
        (fun r => condHolds r (SymCond.profileTypeEq "STUDENT"))) := by
  unfold evalSQ noFilterQuery
  simp only [sqJoins, sqWheres, sqDistinct, List.foldl_cons, List.foldl_nil,
    List.nil_append, evalJoin, if_true]
  congr 1
  apply List.filter_congr
  intro r _
  simp

theorem joinEduRows_no_educations {onCond : Profile → EducationRow → Bool}
    {db : DB} (h : db.educations = []) (rows : List ORow) (full : Bool) :
    joinEduRows full onCond db rows =
      rows.map (fun r => { r with edu := none }) := by
  unfold joinEduRows
  rw [h]
  have hfn : ∀ r : ORow, (match r.profile with
      | none => [{ r with edu := none }]
      | some p =>
        match List.filter (onCond p) ([] : List EducationRow) with
        | [] => [{ r with edu := none }]
        | es => es.map fun e => { r with edu := some e }) =
      [{ r with edu := none }] := by
    intro r
    cases hp : r.profile with
    | none => rfl
    | some p => rfl
  have hmap : (rows.flatMap fun r =>
      match r.profile with
      | none => [{ r with edu := none }]
      | some p =>
        match List.filter (onCond p) ([] : List EducationRow) with
        | [] => [{ r with edu := none }]
        | es => es.map fun e => { r with edu := some e }) =
      rows.map (fun r => { r with edu := none }) := by
    induction rows with
    | nil => rfl
    | cons a as ih =>
      rw [List.flatMap_cons, hfn a, ih, List.map_cons, List.singleton_append]
  rw [hmap]
  cases full with
  | false => simp
  | true => simp

theorem baseRows_edu_none (db : DB) :
    (baseRows db).map (fun r => { r with edu := none }) = baseRows db := by
  unfold baseRows
  rw [List.map_map]
  apply List.map_congr_left
  intro p _
  rfl

theorem filter_baseRows_student (db : DB) :
    (baseRows db).filter (fun r => condHolds r (SymCond.profileTypeEq "STUDENT")) =
      (db.profiles.filter (fun p => p.profile_type == "STUDENT")).map
        (fun p => { profile := some p, edu := none, tjoins := [] }) := by
  unfold baseRows
  rw [List.filter_map]
  congr 1

/-- The evaluated rows of the query `get_searched_users` builds when no
parameter value at all is supplied, over a database with no education rows:
exactly one row per STUDENT profile. -/
theorem evalSQ_empty_params (db : DB) (params : SearchUsersParams)
    (mapping : List MappingItem) (hparams : ∀ name, params.get name = [])
    (hids : (db.profiles.map (fun p => p.id)).Nodup)
    (hedu : db.educations = []) :
    evalSQ db (buildSearchedQuery params mapping) =
      (db.profiles.filter (fun p => p.profile_type == "STUDENT")).map
        (fun p => { profile := some p, edu := none, tjoins := [] }) := by
  rw [buildSearchedQuery_empty hparams, evalSQ_noFilter,
    joinEduRows_no_educations hedu, baseRows_edu_none, filter_baseRows_student]
  apply dedupFirst_of_nodup
  refine List.Nodup.map ?_ (List.Nodup.filter _ (List.Nodup.of_map _ hids))
  intro a b hab
  simpa using hab

theorem collapse_length_of_distinct :
    ∀ {l : List ORow},
      (∀ r ∈ l, r.profile ≠ none) →
      l.Pairwise (fun a b => ∀ pa pb,
        a.profile = some pa → b.profile = some pb → pa.id ≠ pb.id) →
      (collapse l).length = l.length := by
  intro l
  induction l with
  | nil => intro _ _; rfl
  | cons r rs ih =>
    intro hsome hpw
    cases hp : r.profile with
    | none => exact absurd hp (hsome r (List.mem_cons_self r rs))
    | some p =>
      rw [collapse_cons_some hp]
      have hfix : (collapse rs).filter (fun x => !(x.1.id == p.id)) = collapse rs := by
        rw [List.filter_eq_self]
        intro x hx
        obtain ⟨r', hr', he⟩ := collapse_mem hx
        have hne := (List.pairwise_cons.mp hpw).1 r' hr' p x.1 hp he
        have hne' : x.1.id ≠ p.id := Ne.symm hne
        simp [hne']
      rw [hfix]
      simp only [List.length_cons]
      rw [ih (fun r2 h2 => hsome r2 (List.mem_cons_of_mem r h2))
        (List.pairwise_cons.mp hpw).2]

/-- C5: with no values supplied for any mapping entry and no SCHOOL filter,
the query built by `get_searched_users` selects exactly the STUDENT
profiles, and the example holds: over a database of 25 STUDENT profiles
(distinct ids, no education rows), page 1 of size 10 returns 10 items with
total 25. -/
theorem searched_users_no_filters (db : DB) (params : SearchUsersParams)
    (mapping : List MappingItem)
    (hparams : ∀ name, params.get name = [])
    (hids : (db.profiles.map (fun p => p.id)).Nodup)
    (hedu : db.educations = [])
    (h25 : (db.profiles.filter (fun p => p.profile_type == "STUDENT")).length = 25) :
    (∀ p : Profile,
      (∃ r ∈ evalSQ db (buildSearchedQuery params mapping), r.profile = some p) ↔
        (p ∈ db.profiles ∧ p.profile_type = "STUDENT")) ∧
    ∃ items meta,
      get_searched_users db 1 10 params mapping = Except.ok (items, meta) ∧
        items.length = 10 ∧ meta.total = 25 := by
  have heval := evalSQ_empty_params db params mapping hparams hids hedu
  constructor
  · intro p
    rw [heval]
    constructor
    · rintro ⟨r, hr, hprof⟩
      obtain ⟨p0, hp0, hbase⟩ := List.mem_map.mp hr
      have hp0f := List.mem_filter.mp hp0
      rw [← hbase] at hprof
      have hpp : p0 = p := Option.some.inj hprof
      subst hpp
      exact ⟨hp0f.1, by simpa using hp0f.2⟩
    · rintro ⟨hmem, htype⟩
      refine ⟨{ profile := some p, edu := none, tjoins := [] }, ?_, rfl⟩
      exact List.mem_map.mpr ⟨p, List.mem_filter.mpr ⟨hmem, by simp [htype]⟩, rfl⟩
  · unfold get_searched_users
    rw [heval]
    unfold paginate_users
    rw [if_neg (by omega), if_neg (by omega)]
    set srows := (db.profiles.filter (fun p => p.profile_type == "STUDENT")).map
      (fun p => ({ profile := some p, edu := none, tjoins := [] } : ORow)) with hsrows
    have hlen : srows.length = 25 := by
      rw [hsrows, List.length_map, h25]
    have hsome : ∀ r ∈ srows, r.profile ≠ none := by
      intro r hr
      obtain ⟨p0, _, hb⟩ := List.mem_map.mp hr
      rw [← hb]
      simp
    have hpw : srows.Pairwise (fun a b => ∀ pa pb,
        a.profile = some pa → b.profile = some pb → pa.id ≠ pb.id) := by
      rw [hsrows, List.pairwise_map]
      have hndid : ((db.profiles.filter
          (fun p => p.profile_type == "STUDENT")).map (fun p => p.id)).Nodup :=
        List.Nodup.sublist (List.Sublist.map _ (List.filter_sublist _)) hids
      have hpq : (db.profiles.filter (fun p => p.profile_type == "STUDENT")).Pairwise
          (fun a b => a.id ≠ b.id) := List.pairwise_map.mp hndid
      refine hpq.imp ?_
      intro a b hne pa pb hpa hpb
      rw [← Option.some.inj hpa, ← Option.some.inj hpb]
      exact hne
    have hsym : ∀ {x y : ORow},
        (∀ pa pb, x.profile = some pa → y.profile = some pb → pa.id ≠ pb.id) →
        (∀ pa pb, y.profile = some pa → x.profile = some pb → pa.id ≠ pb.id) := by
      intro x y h pa pb hpa hpb
      exact (h pb pa hpb hpa).symm
    have hpws := ((sortRows_perm srows).pairwise_iff hsym).mpr hpw
    have hsub : (((sortRows srows).drop (((1 : Int) - 1) * 10).toNat).take
        (10 : Int).toNat).Sublist (sortRows srows) :=
      List.Sublist.trans (List.take_sublist _ _) (List.drop_sublist _ _)
    have hsliced := List.Pairwise.sublist hsub hpws
    have hsomes : ∀ r ∈ ((sortRows srows).drop (((1 : Int) - 1) * 10).toNat).take
        (10 : Int).toNat, r.profile ≠ none := by
      intro r hr
      exact hsome r ((sortRows_perm srows).mem_iff.mp (hsub.mem hr))
    refine ⟨_, _, rfl, ?_, ?_⟩
    · rw [collapse_length_of_distinct hsomes hsliced]
      have h0 : (((1 : Int) - 1) * 10).toNat = 0 := by norm_num
      rw [h0, List.drop_zero, List.length_take, (sortRows_perm srows).length_eq,
        hlen]
      decide
    · rw [hlen]

/-- C5 (witness): 25 concrete student profiles. -/
theorem searched_users_no_filters_witness :
    ∃ items meta,
      get_searched_users db25 1 10 paramsEmpty PROFILE_QUERY_PARAMS_MAPPING =
        Except.ok (items, meta) ∧ items.length = 10 ∧ meta.total = 25 :=
  (searched_users_no_filters db25 paramsEmpty PROFILE_QUERY_PARAMS_MAPPING
    (fun _ => rfl) (by decide) rfl (by decide)).2

end ProfileRepo
